import Mathlib

/-!
Shallow embedding of the instance-orchestration core of the fim2 backend
(src/fim-backend/src/foundry/foundry.service.ts, multi-instance version,
together with its controller).  External effects — the container engine
(`execAsync`), the filesystem (`fs.mkdir`), and HTTP probes (`axios.get`) —
are modelled as oracles supplied in an `Env`; the Prisma repository is a
`List FoundryInstance`; every operation additionally returns a trace of the
engine commands issued, the HTTP requests attempted and the repository
writes performed, so that absence-of-side-effect properties can be stated.
-/

namespace FIM

/-- The persisted instance status enum (`FoundryInstanceStatus` in the
Prisma schema; migration: CREATING, RUNNING, STOPPED, ERROR, DELETING). -/
inductive FoundryInstanceStatus
  | CREATING
  | RUNNING
  | STOPPED
  | ERROR
  | DELETING
deriving DecidableEq, Repr

/-- The declared health union of the service return types:
`'healthy' | 'unhealthy' | 'unknown' | 'checking'`. -/
inductive HealthStatus
  | healthy
  | unhealthy
  | unknown
  | checking
deriving DecidableEq, Repr

/-- One `foundry_instances` row (timestamps, which no claim mentions and
which the repository manages on its own, are omitted). -/
structure FoundryInstance where
  id : String
  name : String
  port : Nat
  status : FoundryInstanceStatus
  dockerContainerId : Option String
  ownerId : Option Nat
deriving DecidableEq, Repr

/-- The exception classes the service throws: `NotFoundException`,
`BadRequestException`, `InternalServerErrorException`. -/
inductive FoundryError
  | notFound (msg : String)
  | badRequest (msg : String)
  | internal (msg : String)
deriving DecidableEq, Repr

/-- NotFound and BadRequest map to 4xx client errors;
InternalServerError maps to a 5xx server error. -/
def FoundryError.isClientError : FoundryError → Bool
  | .notFound _ => true
  | .badRequest _ => true
  | .internal _ => false

/-- What one `execAsync` call can come back with: a resolved
(stdout, stderr) pair, or a rejection. -/
inductive CmdOutcome
  | output (stdout stderr : String)
  | failure (msg : String)
deriving DecidableEq, Repr

/-- What one `axios.get` call can come back with: an HTTP response with a
status code, or a network-level error (timeout, connection refused; under
`validateStatus : status < 500` a 5xx response also surfaces as an error,
which we keep as the separate `response` case with status ≥ 500). -/
inductive HttpOutcome
  | response (status : Nat)
  | netError (msg : String)
deriving DecidableEq, Repr

/-- One attempted HTTP probe, as recorded in the trace. -/
structure HttpReq where
  port : Nat
  timeoutMs : Nat
deriving DecidableEq, Repr

/-- One repository write, as recorded in the trace.  `updateStartFields`
is the update `{ dockerContainerId, status }` performed by `startFoundry`;
`updateStatus` is the update `{ status }` performed by `stopFoundry` and
`getFoundryStatus`. -/
inductive RepoWrite
  | insert (inst : FoundryInstance)
  | updateStatus (id : String) (status : FoundryInstanceStatus)
  | updateStartFields (id : String) (dockerContainerId : String)
      (status : FoundryInstanceStatus)
  | deleteRec (id : String)
deriving DecidableEq, Repr

/-- The oracles for the external world: the container engine keyed by the
exact command string, the HTTP prober keyed by port, the
`fsSync.existsSync` probe for `/.dockerenv`, the relevant environment
variables, the `fs.mkdir` outcome keyed by path (`none` = resolved), and
the id the repository assigns to the next created record. -/
structure Env where
  engine : String → CmdOutcome
  http : Nat → HttpOutcome
  isRunningInDocker : Bool
  fimFoundryDataRoot : Option String
  home : String
  foundryUsername : String
  foundryPassword : String
  mkdirError : String → Option String
  freshId : String

/-- Side-effect trace of one operation. -/
structure Trace where
  cmds : List String
  https : List HttpReq
  writes : List RepoWrite
deriving DecidableEq, Repr

def Trace.empty : Trace := ⟨[], [], []⟩

/-- Result of one service operation: the returned value or thrown error,
the repository contents afterwards, and the side-effect trace. -/
structure OpResult (α : Type) where
  result : Except FoundryError α
  db : List FoundryInstance
  trace : Trace

def isErr {α : Type} : Except FoundryError α → Bool
  | .error _ => true
  | .ok _ => false

/- ## Repository primitives (Prisma calls on `foundry_instances`) -/

def findUniqueById (db : List FoundryInstance) (id : String) :
    Option FoundryInstance :=
  db.find? (fun i => i.id == id)

def findUniqueByName (db : List FoundryInstance) (name : String) :
    Option FoundryInstance :=
  db.find? (fun i => i.name == name)

def findUniqueByPort (db : List FoundryInstance) (port : Nat) :
    Option FoundryInstance :=
  db.find? (fun i => i.port == port)

def updateById (db : List FoundryInstance) (id : String)
    (f : FoundryInstance → FoundryInstance) : List FoundryInstance :=
  db.map (fun i => if i.id == id then f i else i)

def deleteById (db : List FoundryInstance) (id : String) :
    List FoundryInstance :=
  db.filter (fun i => i.id != id)

/-- The Prisma update payload `{ dockerContainerId, status: RUNNING }`
written by `startFoundry`. -/
def setStarted (cid : String) (i : FoundryInstance) : FoundryInstance :=
  { i with dockerContainerId := some cid,
           status := FoundryInstanceStatus.RUNNING }

/-- The Prisma update payload `{ status }` written by `stopFoundry` and
`getFoundryStatus`. -/
def setStatus (st : FoundryInstanceStatus) (i : FoundryInstance) :
    FoundryInstance :=
  { i with status := st }

/- ## String primitives of the host language -/

def isWsChar (c : Char) : Bool :=
  c == ' ' || c == '\t' || c == '\n' || c == '\r'

/-- `String.prototype.trim()`: strip leading and trailing whitespace. -/
def jsTrim (s : String) : String :=
  String.mk (((s.data.dropWhile isWsChar).reverse.dropWhile isWsChar).reverse)

def lowerChar (c : Char) : Char :=
  if 'A' ≤ c ∧ c ≤ 'Z' then Char.ofNat (c.toNat + 32) else c

/-- `String.prototype.toLowerCase()` (on the ASCII range that container
state strings draw from). -/
def jsToLower (s : String) : String :=
  String.mk (s.data.map lowerChar)

/- ## Command Executor (`_executeCommand`) -/

/-- Whether an `execAsync` outcome makes `_executeCommand` throw: it throws
on a rejected promise and also on any non-empty stderr. -/
def outcomeFails : CmdOutcome → Bool
  | .output _ stderr => stderr != ""
  | .failure _ => true

/-- `_executeCommand`: run the command; reject on non-empty stderr or on a
rejected exec promise, otherwise return trimmed stdout. -/
def executeCommand (outcome : CmdOutcome) (errorMessage : String) :
    Except FoundryError String :=
  match outcome with
  | .output stdout stderr =>
      if stderr != "" then
        .error (.internal (errorMessage ++ ": " ++ stderr))
      else
        .ok (jsTrim stdout)
  | .failure msg => .error (.internal (errorMessage ++ ": " ++ msg))

/- ## Health Prober (`checkInstanceHealth`) -/

/-- `checkInstanceHealth`: `unknown` with no request for a non-RUNNING
instance; otherwise one GET on `http://localhost:<port>` with a 5000 ms
timeout and `validateStatus : status < 500`; any resolved response is
`healthy`, every failure mode is caught and collapsed to `unhealthy`.
Returns the health value paired with the list of attempted requests. -/
def checkInstanceHealth (env : Env) (inst : FoundryInstance) :
    HealthStatus × List HttpReq :=
  if inst.status ≠ FoundryInstanceStatus.RUNNING then
    (.unknown, [])
  else
    match env.http inst.port with
    | .response s =>
        if s < 500 then (.healthy, [⟨inst.port, 5000⟩])
        else (.unhealthy, [⟨inst.port, 5000⟩])
    | .netError _ => (.unhealthy, [⟨inst.port, 5000⟩])

/- ## Command strings built by `startFoundry` -/

def dockerStartCommand (cid : String) : String :=
  "docker start " ++ cid

def hostDataRoot (env : Env) : String :=
  if env.isRunningInDocker then
    env.fimFoundryDataRoot.getD ("/var/lib/foundryvtt/data")
  else
    env.fimFoundryDataRoot.getD (env.home ++ "/foundry-data")

def hostInstancePath (env : Env) (inst : FoundryInstance) : String :=
  hostDataRoot env ++ "/" ++ inst.id

def dataPathToUse (env : Env) (inst : FoundryInstance) : String :=
  if env.isRunningInDocker then "/app/foundry-data-root/" ++ inst.id
  else hostInstancePath env inst

def chownCommand (env : Env) (inst : FoundryInstance) : String :=
  "chown -R 1000:1000 " ++ dataPathToUse env inst

def dockerRunCommand (env : Env) (inst : FoundryInstance) : String :=
  "docker run -d --name foundry-" ++ inst.name ++ " -p " ++
    toString inst.port ++ ":30000 --user 1000:1000 -e FOUNDRY_USERNAME=" ++
    env.foundryUsername ++ " -e FOUNDRY_PASSWORD=" ++ env.foundryPassword ++
    " -v " ++ hostInstancePath env inst ++ ":/data felddy/foundryvtt:latest"

def dockerStopCommand (cid : String) : String :=
  "docker stop " ++ cid

def dockerRmCommand (cid : String) : String :=
  "docker rm -f " ++ cid

def dockerInspectCommand (cid : String) : String :=
  "docker inspect --format=" ++
    "\x27\x7b\x7b.State.Status\x7d\x7d\x27 " ++ cid

/- ## Lifecycle operations -/

/-- `startFoundry(instanceId)`: look up the record (NotFound if absent),
reject if already RUNNING, then either `docker start` the existing
container or mkdir + chown + `docker run` a new one, and only then persist
`{ dockerContainerId, status: RUNNING }` and probe health.  Every failure
before the update is rethrown with the repository untouched. -/
def startFoundry (env : Env) (db : List FoundryInstance)
    (instanceId : String) : OpResult (FoundryInstance × HealthStatus) :=
  match findUniqueById db instanceId with
  | none =>
      ⟨.error (.notFound ("Foundry instance with ID " ++ instanceId ++
        " not found.")), db, Trace.empty⟩
  | some inst =>
    if inst.status = FoundryInstanceStatus.RUNNING then
      ⟨.error (.badRequest ("Foundry instance " ++ inst.name ++
        " is already running.")), db, Trace.empty⟩
    else
      match inst.dockerContainerId with
      | some cid =>
        match executeCommand (env.engine (dockerStartCommand cid))
            ("Failed to start existing Docker container for instance " ++
              inst.name) with
        | .error e => ⟨.error e, db, ⟨[dockerStartCommand cid], [], []⟩⟩
        | .ok _ =>
          ⟨.ok (setStarted cid inst,
             (checkInstanceHealth env (setStarted cid inst)).1),
           updateById db instanceId (setStarted cid),
           ⟨[dockerStartCommand cid],
            (checkInstanceHealth env (setStarted cid inst)).2,
            [.updateStartFields instanceId cid
              FoundryInstanceStatus.RUNNING]⟩⟩
      | none =>
        match env.mkdirError (dataPathToUse env inst) with
        | some msg => ⟨.error (.internal msg), db, Trace.empty⟩
        | none =>
          match executeCommand (env.engine (chownCommand env inst))
              ("Failed to change ownership of " ++ dataPathToUse env inst) with
          | .error e => ⟨.error e, db, ⟨[chownCommand env inst], [], []⟩⟩
          | .ok _ =>
            match executeCommand (env.engine (dockerRunCommand env inst))
                ("Failed to start Docker container for instance " ++
                  inst.name) with
            | .error e =>
                ⟨.error e, db,
                 ⟨[chownCommand env inst, dockerRunCommand env inst], [], []⟩⟩
            | .ok newCid =>
              ⟨.ok (setStarted newCid inst,
                 (checkInstanceHealth env (setStarted newCid inst)).1),
               updateById db instanceId (setStarted newCid),
               ⟨[chownCommand env inst, dockerRunCommand env inst],
                (checkInstanceHealth env (setStarted newCid inst)).2,
                [.updateStartFields instanceId newCid
                  FoundryInstanceStatus.RUNNING]⟩⟩

/-- `stopFoundry(instanceId)`: NotFound if absent; BadRequest unless
RUNNING; InternalServerError if no container id; `docker stop`; on success
persist `{ status: STOPPED }` and return the instance with health
`unknown`. -/
def stopFoundry (env : Env) (db : List FoundryInstance)
    (instanceId : String) : OpResult (FoundryInstance × HealthStatus) :=
  match findUniqueById db instanceId with
  | none =>
      ⟨.error (.notFound ("Foundry instance with ID " ++ instanceId ++
        " not found.")), db, Trace.empty⟩
  | some inst =>
    if inst.status ≠ FoundryInstanceStatus.RUNNING then
      ⟨.error (.badRequest ("Foundry instance " ++ inst.name ++
        " is not running.")), db, Trace.empty⟩
    else
      match inst.dockerContainerId with
      | none =>
          ⟨.error (.internal ("Foundry instance " ++ inst.name ++
            " has no associated Docker container ID.")), db, Trace.empty⟩
      | some cid =>
        match executeCommand (env.engine (dockerStopCommand cid))
            ("Failed to stop Docker container for instance " ++
              inst.name) with
        | .error e => ⟨.error e, db, ⟨[dockerStopCommand cid], [], []⟩⟩
        | .ok _ =>
            ⟨.ok (setStatus FoundryInstanceStatus.STOPPED inst,
               HealthStatus.unknown),
             updateById db instanceId
               (setStatus FoundryInstanceStatus.STOPPED),
             ⟨[dockerStopCommand cid], [],
              [.updateStatus instanceId FoundryInstanceStatus.STOPPED]⟩⟩

/-- `deleteFoundry(instanceId)`: NotFound if absent; if a container id is
present, `docker rm -f` it (failure propagates and the record stays);
then delete the record. -/
def deleteFoundry (env : Env) (db : List FoundryInstance)
    (instanceId : String) : OpResult Unit :=
  match findUniqueById db instanceId with
  | none =>
      ⟨.error (.notFound ("Foundry instance with ID " ++ instanceId ++
        " not found.")), db, Trace.empty⟩
  | some inst =>
    match inst.dockerContainerId with
    | some cid =>
      match executeCommand (env.engine (dockerRmCommand cid))
          ("Failed to remove Docker container for instance " ++
            inst.name) with
      | .error e => ⟨.error e, db, ⟨[dockerRmCommand cid], [], []⟩⟩
      | .ok _ =>
          ⟨.ok (), deleteById db instanceId,
           ⟨[dockerRmCommand cid], [], [.deleteRec instanceId]⟩⟩
    | none =>
        ⟨.ok (), deleteById db instanceId,
         ⟨[], [], [.deleteRec instanceId]⟩⟩

/-- The `switch (dockerStatus.toLowerCase())` of `getFoundryStatus`. -/
def mapDockerStatus (s : String) : FoundryInstanceStatus :=
  if jsToLower s = "running" then FoundryInstanceStatus.RUNNING
  else if jsToLower s = "exited" then FoundryInstanceStatus.STOPPED
  else FoundryInstanceStatus.ERROR

/-- `getFoundryStatus(instanceId)`: NotFound if absent; with no container
id, report STOPPED (persisting it only when the stored status differs);
otherwise `docker inspect`, map the reported state, persist only when it
differs from the stored status, and return it; an inspect failure marks
the record ERROR (when not already) and rethrows. -/
def getFoundryStatus (env : Env) (db : List FoundryInstance)
    (instanceId : String) : OpResult FoundryInstanceStatus :=
  match findUniqueById db instanceId with
  | none =>
      ⟨.error (.notFound ("Foundry instance with ID " ++ instanceId ++
        " not found.")), db, Trace.empty⟩
  | some inst =>
    match inst.dockerContainerId with
    | none =>
      if inst.status ≠ FoundryInstanceStatus.STOPPED then
        ⟨.ok FoundryInstanceStatus.STOPPED,
         updateById db instanceId
           (setStatus FoundryInstanceStatus.STOPPED),
         ⟨[], [], [.updateStatus instanceId FoundryInstanceStatus.STOPPED]⟩⟩
      else
        ⟨.ok FoundryInstanceStatus.STOPPED, db, Trace.empty⟩
    | some cid =>
      match executeCommand (env.engine (dockerInspectCommand cid))
          ("Failed to inspect Docker container for instance " ++
            inst.name) with
      | .error e =>
        if inst.status ≠ FoundryInstanceStatus.ERROR then
          ⟨.error e,
           updateById db instanceId
             (setStatus FoundryInstanceStatus.ERROR),
           ⟨[dockerInspectCommand cid], [],
            [.updateStatus instanceId FoundryInstanceStatus.ERROR]⟩⟩
        else
          ⟨.error e, db, ⟨[dockerInspectCommand cid], [], []⟩⟩
      | .ok dockerStatus =>
        if inst.status ≠ mapDockerStatus dockerStatus then
          ⟨.ok (mapDockerStatus dockerStatus),
           updateById db instanceId
             (setStatus (mapDockerStatus dockerStatus)),
           ⟨[dockerInspectCommand cid], [],
            [.updateStatus instanceId (mapDockerStatus dockerStatus)]⟩⟩
        else
          ⟨.ok (mapDockerStatus dockerStatus), db,
           ⟨[dockerInspectCommand cid], [], []⟩⟩

/-- `createFoundryInstance(name, port, ownerId)`: reject when a record
with the name, or one with the port, already exists; otherwise insert a
CREATING record and invoke `startFoundry` on it; if that start fails the
just-inserted record is deleted and the error rethrown. -/
def createFoundryInstance (env : Env) (db : List FoundryInstance)
    (name : String) (port : Nat) (ownerId : Option Nat) :
    OpResult (FoundryInstance × HealthStatus) :=
  match findUniqueByName db name with
  | some _ =>
      ⟨.error (.badRequest ("Foundry instance with name " ++ name ++
        " already exists.")), db, Trace.empty⟩
  | none =>
    match findUniqueByPort db port with
    | some _ =>
        ⟨.error (.badRequest ("Foundry instance with port " ++
          toString port ++ " already in use.")), db, Trace.empty⟩
    | none =>
      let newInstance : FoundryInstance :=
        ⟨env.freshId, name, port, FoundryInstanceStatus.CREATING,
         none, ownerId⟩
      let started := startFoundry env (db ++ [newInstance]) env.freshId
      match started.result with
      | .ok r =>
          ⟨.ok r, started.db,
           ⟨started.trace.cmds, started.trace.https,
            RepoWrite.insert newInstance :: started.trace.writes⟩⟩
      | .error e =>
          ⟨.error e, deleteById started.db env.freshId,
           ⟨started.trace.cmds, started.trace.https,
            (RepoWrite.insert newInstance :: started.trace.writes) ++
              [RepoWrite.deleteRec env.freshId]⟩⟩

/-- `listFoundryInstances()`: list every record, probing each one's
health (the per-instance probes run concurrently in the source; they are
independent, so the sequential zip below has the same outcome). -/
def listFoundryInstances (env : Env) (db : List FoundryInstance) :
    OpResult (List (FoundryInstance × HealthStatus)) :=
  ⟨.ok (db.map (fun i => (i, (checkInstanceHealth env i).1))), db,
   ⟨[], (db.map (fun i => (checkInstanceHealth env i).2)).flatten, []⟩⟩

/-- The create endpoint as the HTTP layer executes it.  The global
`ValidationPipe` (main.ts) validates the request body against
`CreateFoundryInstanceDto`, whose `port` field carries
`@IsInt() @Min(1024) @Max(65535)`: a port below 1024 or above 65535 is
rejected with a BadRequest (400) error — using class-validator's default
messages — before the controller handler runs; only then does the
controller invoke `createFoundryInstance(name, port)` (passing no
ownerId). -/
def createInstanceEndpoint (env : Env) (db : List FoundryInstance)
    (name : String) (port : Nat) :
    OpResult (FoundryInstance × HealthStatus) :=
  if port < 1024 then
    ⟨.error (.badRequest ("port must not be less than 1024")), db,
     Trace.empty⟩
  else if 65535 < port then
    ⟨.error (.badRequest ("port must not be greater than 65535")), db,
     Trace.empty⟩
  else
    createFoundryInstance env db name port none

instance {α : Type} [DecidableEq α] : DecidableEq (Except FoundryError α) :=
  fun a b =>
    match a, b with
    | .ok x, .ok y =>
        if h : x = y then .isTrue (by rw [h])
        else .isFalse (by simp [h])
    | .error x, .error y =>
        if h : x = y then .isTrue (by rw [h])
        else .isFalse (by simp [h])
    | .ok _, .error _ => .isFalse (by simp)
    | .error _, .ok _ => .isFalse (by simp)

/- ## Concrete fixtures used by witnesses and counterexamples -/

/-- An environment in which every external call succeeds: the engine
resolves with stdout `cid-new` and empty stderr, HTTP probes answer 200,
`mkdir` resolves, and the repository assigns id `new-1`. -/
def envOk : Env where
  engine := fun _ => CmdOutcome.output ("cid-new") ("")
  http := fun _ => HttpOutcome.response 200
  isRunningInDocker := true
  fimFoundryDataRoot := some ("/data")
  home := "/root"
  foundryUsername := "u"
  foundryPassword := "p"
  mkdirError := fun _ => none
  freshId := "new-1"

/-- An environment in which every engine command rejects. -/
def envFail : Env where
  engine := fun _ => CmdOutcome.failure ("boom")
  http := fun _ => HttpOutcome.response 200
  isRunningInDocker := true
  fimFoundryDataRoot := some ("/data")
  home := "/root"
  foundryUsername := "u"
  foundryPassword := "p"
  mkdirError := fun _ => none
  freshId := "new-1"

def instRun : FoundryInstance where
  id := "i1"
  name := "alpha"
  port := 30010
  status := FoundryInstanceStatus.RUNNING
  dockerContainerId := some ("c1")
  ownerId := none

def instStopped : FoundryInstance where
  id := "i2"
  name := "beta"
  port := 30011
  status := FoundryInstanceStatus.STOPPED
  dockerContainerId := some ("c2")
  ownerId := none

def instNoCid : FoundryInstance where
  id := "i3"
  name := "gamma"
  port := 30012
  status := FoundryInstanceStatus.STOPPED
  dockerContainerId := none
  ownerId := none

example : (stopFoundry envOk [instRun] ("i1")).result =
    Except.ok ({ instRun with status := FoundryInstanceStatus.STOPPED },
      HealthStatus.unknown) := by decide

def createdAlpha : FoundryInstance where
  id := "new-1"
  name := "alpha"
  port := 30010
  status := FoundryInstanceStatus.RUNNING
  dockerContainerId := some ("cid-new")
  ownerId := none

example : (createFoundryInstance envOk [] ("alpha") 30010 none).result =
    Except.ok (createdAlpha, HealthStatus.healthy) := by decide

example : isErr (createFoundryInstance envFail [] ("alpha") 30010
    none).result = true := by decide

example : (createFoundryInstance envFail [] ("alpha") 30010 none).db =
    [] := by decide

example : (deleteFoundry envOk [instRun] ("i1")).trace.writes =
    [RepoWrite.deleteRec ("i1")] := by decide

example : (getFoundryStatus
    { envOk with engine := fun _ => CmdOutcome.output ("EXITED") ("") }
    [instRun] ("i1")).result = Except.ok FoundryInstanceStatus.STOPPED := by
  decide

/- ## Helper lemmas -/

theorem executeCommand_ok (o : CmdOutcome) (m : String)
    (h : outcomeFails o = false) :
    ∃ s, executeCommand o m = Except.ok s := by
  cases o with
  | output stdout stderr =>
      refine ⟨jsTrim stdout, ?_⟩
      simp only [outcomeFails] at h
      simp [executeCommand, h]
  | failure msg => simp [outcomeFails] at h

theorem executeCommand_err (o : CmdOutcome) (m : String)
    (h : outcomeFails o = true) :
    ∃ e, executeCommand o m = Except.error (FoundryError.internal e) := by
  cases o with
  | output stdout stderr =>
      simp only [outcomeFails] at h
      exact ⟨m ++ ": " ++ stderr, by simp [executeCommand, h]⟩
  | failure msg => exact ⟨m ++ ": " ++ msg, by simp [executeCommand]⟩

theorem checkInstanceHealth_ne_checking (env : Env)
    (inst : FoundryInstance) :
    (checkInstanceHealth env inst).1 ≠ HealthStatus.checking := by
  by_cases h : inst.status = FoundryInstanceStatus.RUNNING
  · rcases hh : env.http inst.port with s | m
    · by_cases hs : s < 500 <;> simp [checkInstanceHealth, h, hh, hs]
    · simp [checkInstanceHealth, h, hh]
  · simp [checkInstanceHealth, h]

/-- Exhaustive description of `startFoundry`: either it fails, leaving the
repository untouched and writing nothing, or the record existed with a
non-RUNNING status and it returns the instance updated to RUNNING with a
container id, persisting exactly that update. -/
theorem startFoundry_cases (env : Env) (db : List FoundryInstance)
    (iid : String) :
    (isErr (startFoundry env db iid).result = true ∧
      (startFoundry env db iid).db = db ∧
      (startFoundry env db iid).trace.writes = []) ∨
    (∃ inst cid, findUniqueById db iid = some inst ∧
      ¬ inst.status = FoundryInstanceStatus.RUNNING ∧
      (startFoundry env db iid).result = Except.ok
        (setStarted cid inst,
         (checkInstanceHealth env (setStarted cid inst)).1) ∧
      (startFoundry env db iid).db =
        updateById db iid (setStarted cid) ∧
      (startFoundry env db iid).trace.writes =
        [RepoWrite.updateStartFields iid cid
          FoundryInstanceStatus.RUNNING]) := by
  rcases hf : findUniqueById db iid with _ | inst
  · left; simp [startFoundry, hf, isErr, Trace.empty]
  · by_cases hr : inst.status = FoundryInstanceStatus.RUNNING
    · left; simp [startFoundry, hf, hr, isErr, Trace.empty]
    · rcases hc : inst.dockerContainerId with _ | cid
      · rcases hm : env.mkdirError (dataPathToUse env inst) with _ | msg
        · rcases he1 : executeCommand (env.engine (chownCommand env inst))
              ("Failed to change ownership of " ++ dataPathToUse env inst)
              with e | s
          · left; simp [startFoundry, hf, hr, hc, hm, he1, isErr]
          · rcases he2 : executeCommand
                (env.engine (dockerRunCommand env inst))
                ("Failed to start Docker container for instance " ++
                  inst.name) with e | newCid
            · left
              simp [startFoundry, hf, hr, hc, hm, he1, he2, isErr]
            · right
              exact ⟨inst, newCid, rfl, hr,
                by simp [startFoundry, hf, hr, hc, hm, he1, he2],
                by simp [startFoundry, hf, hr, hc, hm, he1, he2],
                by simp [startFoundry, hf, hr, hc, hm, he1, he2]⟩
        · left; simp [startFoundry, hf, hr, hc, hm, isErr, Trace.empty]
      · rcases he : executeCommand (env.engine (dockerStartCommand cid))
            ("Failed to start existing Docker container for instance " ++
              inst.name) with e | s
        · left; simp [startFoundry, hf, hr, hc, he, isErr]
        · right
          exact ⟨inst, cid, rfl, hr,
            by simp [startFoundry, hf, hr, hc, he],
            by simp [startFoundry, hf, hr, hc, he],
            by simp [startFoundry, hf, hr, hc, he]⟩

/-- Exhaustive description of `stopFoundry`: either it fails, leaving the
repository untouched and writing nothing, or the record was RUNNING with a
container id and it returns the instance with only its status flipped to
STOPPED, persisting exactly that update. -/
theorem stopFoundry_cases (env : Env) (db : List FoundryInstance)
    (iid : String) :
    (isErr (stopFoundry env db iid).result = true ∧
      (stopFoundry env db iid).db = db ∧
      (stopFoundry env db iid).trace.writes = []) ∨
    (∃ inst cid, findUniqueById db iid = some inst ∧
      inst.status = FoundryInstanceStatus.RUNNING ∧
      inst.dockerContainerId = some cid ∧
      (stopFoundry env db iid).result = Except.ok
        (setStatus FoundryInstanceStatus.STOPPED inst,
          HealthStatus.unknown) ∧
      (stopFoundry env db iid).db = updateById db iid
        (setStatus FoundryInstanceStatus.STOPPED) ∧
      (stopFoundry env db iid).trace.writes =
        [RepoWrite.updateStatus iid FoundryInstanceStatus.STOPPED]) := by
  rcases hf : findUniqueById db iid with _ | inst
  · left; simp [stopFoundry, hf, isErr, Trace.empty]
  · by_cases hr : inst.status = FoundryInstanceStatus.RUNNING
    · rcases hc : inst.dockerContainerId with _ | cid
      · left; simp [stopFoundry, hf, hr, hc, isErr, Trace.empty]
      · rcases he : executeCommand (env.engine (dockerStopCommand cid))
            ("Failed to stop Docker container for instance " ++ inst.name)
            with e | s
        · left; simp [stopFoundry, hf, hr, hc, he, isErr]
        · right
          exact ⟨inst, cid, rfl, hr, hc,
            by simp [stopFoundry, hf, hr, hc, he],
            by simp [stopFoundry, hf, hr, hc, he],
            by simp [stopFoundry, hf, hr, hc, he]⟩
    · left; simp [stopFoundry, hf, hr, isErr, Trace.empty]

/-- Exhaustive description of `deleteFoundry`: either it fails, leaving
the repository untouched and writing nothing, or the record existed and
the only write is the removal of that record. -/
theorem deleteFoundry_cases (env : Env) (db : List FoundryInstance)
    (iid : String) :
    (isErr (deleteFoundry env db iid).result = true ∧
      (deleteFoundry env db iid).db = db ∧
      (deleteFoundry env db iid).trace.writes = []) ∨
    (∃ inst, findUniqueById db iid = some inst ∧
      (deleteFoundry env db iid).result = Except.ok () ∧
      (deleteFoundry env db iid).db = deleteById db iid ∧
      (deleteFoundry env db iid).trace.writes =
        [RepoWrite.deleteRec iid]) := by
  rcases hf : findUniqueById db iid with _ | inst
  · left; simp [deleteFoundry, hf, isErr, Trace.empty]
  · rcases hc : inst.dockerContainerId with _ | cid
    · right
      exact ⟨inst, rfl, by simp [deleteFoundry, hf, hc],
        by simp [deleteFoundry, hf, hc], by simp [deleteFoundry, hf, hc]⟩
    · rcases he : executeCommand (env.engine (dockerRmCommand cid))
          ("Failed to remove Docker container for instance " ++ inst.name)
          with e | s
      · left; simp [deleteFoundry, hf, hc, he, isErr]
      · right
        exact ⟨inst, rfl, by simp [deleteFoundry, hf, hc, he],
          by simp [deleteFoundry, hf, hc, he],
          by simp [deleteFoundry, hf, hc, he]⟩

/- ## Claim theorems -/

/-- C10: for each of startFoundry, stopFoundry, deleteFoundry and
getFoundryStatus, when no record exists for the given id the operation
fails with NotFound, the repository is unchanged, and the trace is empty:
no engine command was issued, no probe attempted, no write performed. -/
theorem notFound_no_side_effects (env : Env) (db : List FoundryInstance)
    (iid : String) (h : findUniqueById db iid = none) :
    ((startFoundry env db iid).result = Except.error (FoundryError.notFound
        ("Foundry instance with ID " ++ iid ++ " not found.")) ∧
      (startFoundry env db iid).db = db ∧
      (startFoundry env db iid).trace = Trace.empty) ∧
    ((stopFoundry env db iid).result = Except.error (FoundryError.notFound
        ("Foundry instance with ID " ++ iid ++ " not found.")) ∧
      (stopFoundry env db iid).db = db ∧
      (stopFoundry env db iid).trace = Trace.empty) ∧
    ((deleteFoundry env db iid).result = Except.error (FoundryError.notFound
        ("Foundry instance with ID " ++ iid ++ " not found.")) ∧
      (deleteFoundry env db iid).db = db ∧
      (deleteFoundry env db iid).trace = Trace.empty) ∧
    ((getFoundryStatus env db iid).result = Except.error (FoundryError.notFound
        ("Foundry instance with ID " ++ iid ++ " not found.")) ∧
      (getFoundryStatus env db iid).db = db ∧
      (getFoundryStatus env db iid).trace = Trace.empty) := by
  refine ⟨⟨?_, ?_, ?_⟩, ⟨?_, ?_, ?_⟩, ⟨?_, ?_, ?_⟩, ⟨?_, ?_, ?_⟩⟩ <;>
    simp [startFoundry, stopFoundry, deleteFoundry, getFoundryStatus, h]

theorem notFound_no_side_effects_witness :
    (stopFoundry envOk [instRun] ("nope")).result =
      Except.error (FoundryError.notFound
        ("Foundry instance with ID nope not found.")) ∧
    (stopFoundry envOk [instRun] ("nope")).db = [instRun] :=
  ⟨(notFound_no_side_effects envOk [instRun] ("nope") (by decide)).2.1.1,
   (notFound_no_side_effects envOk [instRun] ("nope") (by decide)).2.1.2.1⟩

/-- C5: the health probe returns `unknown` with no HTTP request for any
instance whose status is not RUNNING; for a RUNNING instance it attempts
exactly one request, on the instance's port with a 5000 ms timeout, and
returns `healthy` exactly when a response with status below 500 arrives,
`unhealthy` exactly on a server error (status ≥ 500) or a network-level
failure; being a total function into `HealthStatus`, it never throws. -/
theorem healthProbe_contract (env : Env) (inst : FoundryInstance) :
    (inst.status ≠ FoundryInstanceStatus.RUNNING →
      checkInstanceHealth env inst = (HealthStatus.unknown, [])) ∧
    (inst.status = FoundryInstanceStatus.RUNNING →
      (checkInstanceHealth env inst).2 =
        [{ port := inst.port, timeoutMs := 5000 }] ∧
      ((checkInstanceHealth env inst).1 = HealthStatus.healthy ↔
        ∃ s, env.http inst.port = HttpOutcome.response s ∧ s < 500) ∧
      ((checkInstanceHealth env inst).1 = HealthStatus.unhealthy ↔
        ((∃ s, env.http inst.port = HttpOutcome.response s ∧ 500 ≤ s) ∨
          ∃ m, env.http inst.port = HttpOutcome.netError m))) := by
  constructor
  · intro h
    simp [checkInstanceHealth, h]
  · intro h
    rcases hh : env.http inst.port with s | m
    · by_cases hs : s < 500 <;>
        · refine ⟨?_, ?_, ?_⟩ <;>
            simp [checkInstanceHealth, h, hh, hs] <;> omega
    · refine ⟨?_, ?_, ?_⟩ <;> simp [checkInstanceHealth, h, hh]

theorem healthProbe_contract_witness :
    checkInstanceHealth envOk instStopped = (HealthStatus.unknown, []) ∧
    (checkInstanceHealth envOk instRun).2 =
      [{ port := 30010, timeoutMs := 5000 }] :=
  ⟨(healthProbe_contract envOk instStopped).1 (by decide),
   (healthProbe_contract envOk instRun).2 (by decide) |>.1⟩

/-- C9: every health value returned by the core operations — create,
start, stop, list — is `healthy`, `unhealthy` or `unknown`; the declared
fourth value `checking` is never produced (stop in fact always returns
`unknown`). -/
theorem health_status_values :
    (∀ env inst, (checkInstanceHealth env inst).1 ≠ HealthStatus.checking) ∧
    (∀ env db iid p, (startFoundry env db iid).result = Except.ok p →
      p.2 ≠ HealthStatus.checking) ∧
    (∀ env db iid p, (stopFoundry env db iid).result = Except.ok p →
      p.2 = HealthStatus.unknown) ∧
    (∀ env db name port ownerId p,
      (createFoundryInstance env db name port ownerId).result =
        Except.ok p → p.2 ≠ HealthStatus.checking) ∧
    (∀ env db l, (listFoundryInstances env db).result = Except.ok l →
      ∀ x ∈ l, x.2 ≠ HealthStatus.checking) := by
  have hstart : ∀ env db iid p,
      (startFoundry env db iid).result = Except.ok p →
      p.2 ≠ HealthStatus.checking := by
    intro env db iid p h
    rcases startFoundry_cases env db iid with ⟨he, _, _⟩ |
        ⟨inst, cid, _, _, hres, _, _⟩
    · rw [h] at he; simp [isErr] at he
    · rw [hres] at h
      simp only [Except.ok.injEq] at h
      rw [← h]
      exact checkInstanceHealth_ne_checking env (setStarted cid inst)
  refine ⟨checkInstanceHealth_ne_checking, hstart, ?_, ?_, ?_⟩
  · intro env db iid p h
    rcases stopFoundry_cases env db iid with ⟨he, _, _⟩ |
        ⟨inst, cid, _, _, _, hres, _, _⟩
    · rw [h] at he; simp [isErr] at he
    · rw [hres] at h
      simp only [Except.ok.injEq] at h
      rw [← h]
  · intro env db name port ownerId p h
    rcases hn : findUniqueByName db name with _ | i
    · rcases hp : findUniqueByPort db port with _ | i
      · have hc := startFoundry_cases env
          (db ++ [(⟨env.freshId, name, port, FoundryInstanceStatus.CREATING,
            none, ownerId⟩ : FoundryInstance)]) env.freshId
        rcases hc with ⟨he, _, _⟩ | ⟨inst, cid, _, _, hres, _, _⟩
        · rcases hse : (startFoundry env
              (db ++ [(⟨env.freshId, name, port,
                FoundryInstanceStatus.CREATING, none,
                ownerId⟩ : FoundryInstance)]) env.freshId).result
              with e | r
          · simp [createFoundryInstance, hn, hp, hse] at h
          · rw [hse] at he; simp [isErr] at he
        · simp only [createFoundryInstance, hn, hp, hres] at h
          simp only [Except.ok.injEq] at h
          rw [← h]
          exact checkInstanceHealth_ne_checking env (setStarted cid inst)
      · simp [createFoundryInstance, hn, hp] at h
    · simp [createFoundryInstance, hn] at h
  · intro env db l h x hx
    simp only [listFoundryInstances, Except.ok.injEq] at h
    rw [← h] at hx
    rcases List.mem_map.1 hx with ⟨i, _, rfl⟩
    exact checkInstanceHealth_ne_checking env i

theorem health_status_values_witness :
    (setStatus FoundryInstanceStatus.STOPPED instRun,
      HealthStatus.unknown).2 = HealthStatus.unknown :=
  health_status_values.2.2.1 envOk [instRun] ("i1")
    (setStatus FoundryInstanceStatus.STOPPED instRun,
      HealthStatus.unknown) (by decide)

/-- C6: a successful stop of a RUNNING instance with container id `cid`
returns (and persists via a status-only update) the instance with status
STOPPED while id, name, port, ownerId are unchanged and the container id
is still `cid` — stop never clears the container reference. -/
theorem stopInstance_frame (env : Env) (db : List FoundryInstance)
    (iid : String) (inst : FoundryInstance) (cid : String)
    (hf : findUniqueById db iid = some inst)
    (hr : inst.status = FoundryInstanceStatus.RUNNING)
    (hc : inst.dockerContainerId = some cid)
    (he : outcomeFails (env.engine (dockerStopCommand cid)) = false) :
    ∃ inst2,
      (stopFoundry env db iid).result =
        Except.ok (inst2, HealthStatus.unknown) ∧
      inst2.id = inst.id ∧ inst2.name = inst.name ∧
      inst2.port = inst.port ∧ inst2.dockerContainerId = some cid ∧
      inst2.ownerId = inst.ownerId ∧
      inst2.status = FoundryInstanceStatus.STOPPED ∧
      (stopFoundry env db iid).db =
        updateById db iid (setStatus FoundryInstanceStatus.STOPPED) ∧
      (stopFoundry env db iid).trace.writes =
        [RepoWrite.updateStatus iid FoundryInstanceStatus.STOPPED] := by
  obtain ⟨s, hs⟩ := executeCommand_ok (env.engine (dockerStopCommand cid))
    ("Failed to stop Docker container for instance " ++ inst.name) he
  refine ⟨setStatus FoundryInstanceStatus.STOPPED inst, ?_, ?_, ?_, ?_,
    ?_, ?_, ?_, ?_, ?_⟩ <;>
    simp [stopFoundry, hf, hr, hc, hs, setStatus]

theorem stopInstance_frame_witness :
    ∃ inst2,
      (stopFoundry envOk [instRun] ("i1")).result =
        Except.ok (inst2, HealthStatus.unknown) ∧
      inst2.id = instRun.id ∧ inst2.name = instRun.name ∧
      inst2.port = instRun.port ∧ inst2.dockerContainerId = some ("c1") ∧
      inst2.ownerId = instRun.ownerId ∧
      inst2.status = FoundryInstanceStatus.STOPPED ∧
      (stopFoundry envOk [instRun] ("i1")).db =
        updateById [instRun] ("i1")
          (setStatus FoundryInstanceStatus.STOPPED) ∧
      (stopFoundry envOk [instRun] ("i1")).trace.writes =
        [RepoWrite.updateStatus ("i1") FoundryInstanceStatus.STOPPED] :=
  stopInstance_frame envOk [instRun] ("i1") instRun ("c1")
    (by decide) (by decide) (by decide) (by decide)

/-- C8: a create request whose port lies outside the allowed range
[1024, 65535] — the `@Min(1024)`/`@Max(65535)` bounds of
`CreateFoundryInstanceDto`, enforced by the global ValidationPipe — is
rejected with a BadRequest client error before the service runs: the
repository is unchanged and no side effect of any kind is traced. -/
theorem createEndpoint_port_range_guard (env : Env)
    (db : List FoundryInstance) (name : String) (port : Nat)
    (h : port < 1024 ∨ 65535 < port) :
    (∃ msg,
      (createInstanceEndpoint env db name port).result =
        Except.error (FoundryError.badRequest msg) ∧
      FoundryError.isClientError (FoundryError.badRequest msg) = true) ∧
    (createInstanceEndpoint env db name port).db = db ∧
    (createInstanceEndpoint env db name port).trace = Trace.empty := by
  rcases h with h | h
  · exact ⟨⟨"port must not be less than 1024",
      by simp [createInstanceEndpoint, h], rfl⟩,
      by simp [createInstanceEndpoint, h],
      by simp [createInstanceEndpoint, h]⟩
  · have h2 : ¬ port < 1024 := by omega
    exact ⟨⟨"port must not be greater than 65535",
      by simp [createInstanceEndpoint, h, h2], rfl⟩,
      by simp [createInstanceEndpoint, h, h2],
      by simp [createInstanceEndpoint, h, h2]⟩

theorem createEndpoint_port_range_guard_witness :
    ((∃ msg,
      (createInstanceEndpoint envOk [] ("alpha") 99).result =
        Except.error (FoundryError.badRequest msg) ∧
      FoundryError.isClientError (FoundryError.badRequest msg) = true) ∧
    (createInstanceEndpoint envOk [] ("alpha") 99).db = [] ∧
    (createInstanceEndpoint envOk [] ("alpha") 99).trace =
      Trace.empty) ∧
    (∃ msg,
      (createInstanceEndpoint envOk [] ("beta") 70000).result =
        Except.error (FoundryError.badRequest msg) ∧
      FoundryError.isClientError (FoundryError.badRequest msg) = true) ∧
    (createInstanceEndpoint envOk [] ("beta") 70000).db = [] ∧
    (createInstanceEndpoint envOk [] ("beta") 70000).trace =
      Trace.empty :=
  ⟨createEndpoint_port_range_guard envOk [] ("alpha") 99 (by decide),
   createEndpoint_port_range_guard envOk [] ("beta") 70000 (by decide)⟩

/-- C7 counterexample: deleting an existing instance (id i1, container c1,
healthy engine) succeeds and removes the record, but the only repository
write is the deletion itself — no write ever sets the status to DELETING,
contradicting the claim that delete persists DELETING before removal. -/
theorem delete_skips_deleting_counterexample :
    (deleteFoundry envOk [instRun] ("i1")).result = Except.ok () ∧
    (deleteFoundry envOk [instRun] ("i1")).db = [] ∧
    (deleteFoundry envOk [instRun] ("i1")).trace.writes =
      [RepoWrite.deleteRec ("i1")] ∧
    RepoWrite.updateStatus ("i1") FoundryInstanceStatus.DELETING ∉
      (deleteFoundry envOk [instRun] ("i1")).trace.writes := by
  refine ⟨by decide, by decide, by decide, by decide⟩

/-- C7 amended: deleteInstance removes the repository record directly —
after forcibly removing the container when a container id is present —
without first persisting a DELETING status: on every successful delete the
only repository write is the record removal, and no status update (to
DELETING or any other value) is performed. -/
theorem delete_direct_removal (env : Env) (db : List FoundryInstance)
    (iid : String) (inst : FoundryInstance)
    (hf : findUniqueById db iid = some inst) :
    (inst.dockerContainerId = none →
      (deleteFoundry env db iid).result = Except.ok () ∧
      (deleteFoundry env db iid).db = deleteById db iid ∧
      (deleteFoundry env db iid).trace.writes =
        [RepoWrite.deleteRec iid] ∧
      ∀ st, RepoWrite.updateStatus iid st ∉
        (deleteFoundry env db iid).trace.writes) ∧
    (∀ cid, inst.dockerContainerId = some cid →
      outcomeFails (env.engine (dockerRmCommand cid)) = false →
      (deleteFoundry env db iid).result = Except.ok () ∧
      (deleteFoundry env db iid).db = deleteById db iid ∧
      (deleteFoundry env db iid).trace.cmds = [dockerRmCommand cid] ∧
      (deleteFoundry env db iid).trace.writes =
        [RepoWrite.deleteRec iid] ∧
      ∀ st, RepoWrite.updateStatus iid st ∉
        (deleteFoundry env db iid).trace.writes) := by
  constructor
  · intro hc
    refine ⟨?_, ?_, ?_, ?_⟩ <;> simp [deleteFoundry, hf, hc]
  · intro cid hc he
    obtain ⟨s, hs⟩ := executeCommand_ok (env.engine (dockerRmCommand cid))
      ("Failed to remove Docker container for instance " ++ inst.name) he
    refine ⟨?_, ?_, ?_, ?_, ?_⟩ <;> simp [deleteFoundry, hf, hc, hs]

theorem delete_direct_removal_witness :
    (deleteFoundry envOk [instRun] ("i1")).result = Except.ok () ∧
    (deleteFoundry envOk [instRun] ("i1")).db =
      deleteById [instRun] ("i1") ∧
    (deleteFoundry envOk [instRun] ("i1")).trace.cmds =
      [dockerRmCommand ("c1")] ∧
    (deleteFoundry envOk [instRun] ("i1")).trace.writes =
      [RepoWrite.deleteRec ("i1")] ∧
    ∀ st, RepoWrite.updateStatus ("i1") st ∉
      (deleteFoundry envOk [instRun] ("i1")).trace.writes :=
  (delete_direct_removal envOk [instRun] ("i1") instRun
    (by decide)).2 ("c1") (by decide) (by decide)

/-- C4 counterexample: with the engine reporting the raw state `EXITED` —
a string other than `running` and `exited` — getFoundryStatus returns (and
persists) STOPPED, not ERROR: the code compares the state
case-insensitively, refuting the claim that every string other than
`running`/`exited` maps to ERROR. -/
theorem getStatus_case_mapping_counterexample :
    (getFoundryStatus
        { envOk with engine := fun _ => CmdOutcome.output ("EXITED") ("") }
        [instRun] ("i1")).result =
      Except.ok FoundryInstanceStatus.STOPPED ∧
    ("EXITED" ≠ "running") ∧ ("EXITED" ≠ "exited") ∧
    FoundryInstanceStatus.STOPPED ≠ FoundryInstanceStatus.ERROR := by
  refine ⟨by decide, by decide, by decide, by decide⟩

/-- C4 amended: getFoundryStatus reconciles the stored status with the
engine-reported state mapped case-insensitively: a state whose lowercase
form is `running` maps to RUNNING, lowercase `exited` maps to STOPPED, any
other reported string maps to ERROR; an absent container id maps to
STOPPED with no engine command; the mapped status is returned, and a
status update is written exactly when the mapped status differs from the
stored one. -/
theorem getStatus_reconciliation (env : Env) (db : List FoundryInstance)
    (iid : String) (inst : FoundryInstance)
    (hf : findUniqueById db iid = some inst) :
    (inst.dockerContainerId = none →
      (getFoundryStatus env db iid).result =
        Except.ok FoundryInstanceStatus.STOPPED ∧
      (getFoundryStatus env db iid).trace.cmds = [] ∧
      (inst.status = FoundryInstanceStatus.STOPPED →
        (getFoundryStatus env db iid).db = db ∧
        (getFoundryStatus env db iid).trace.writes = []) ∧
      (inst.status ≠ FoundryInstanceStatus.STOPPED →
        (getFoundryStatus env db iid).db =
          updateById db iid (setStatus FoundryInstanceStatus.STOPPED) ∧
        (getFoundryStatus env db iid).trace.writes =
          [RepoWrite.updateStatus iid FoundryInstanceStatus.STOPPED])) ∧
    (∀ cid out st, inst.dockerContainerId = some cid →
      env.engine (dockerInspectCommand cid) = CmdOutcome.output out ("") →
      st = (if jsToLower (jsTrim out) = "running" then
          FoundryInstanceStatus.RUNNING
        else if jsToLower (jsTrim out) = "exited" then
          FoundryInstanceStatus.STOPPED
        else FoundryInstanceStatus.ERROR) →
      (getFoundryStatus env db iid).result = Except.ok st ∧
      (inst.status = st →
        (getFoundryStatus env db iid).db = db ∧
        (getFoundryStatus env db iid).trace.writes = []) ∧
      (inst.status ≠ st →
        (getFoundryStatus env db iid).db =
          updateById db iid (setStatus st) ∧
        (getFoundryStatus env db iid).trace.writes =
          [RepoWrite.updateStatus iid st])) := by
  constructor
  · intro hc
    by_cases hs : inst.status = FoundryInstanceStatus.STOPPED
    · refine ⟨?_, ?_, fun _ => ⟨?_, ?_⟩, fun hns => absurd hs hns⟩ <;>
        simp [getFoundryStatus, hf, hc, hs, Trace.empty]
    · refine ⟨?_, ?_, fun hx => absurd hx hs, fun _ => ⟨?_, ?_⟩⟩ <;>
        simp [getFoundryStatus, hf, hc, hs]
  · intro cid out st hc he hst
    have hexec : executeCommand (env.engine (dockerInspectCommand cid))
        ("Failed to inspect Docker container for instance " ++ inst.name) =
        Except.ok (jsTrim out) := by
      rw [he]; simp [executeCommand]
    have hmap : mapDockerStatus (jsTrim out) = st := by
      rw [hst]; rfl
    by_cases hs : inst.status = st
    · refine ⟨?_, fun _ => ⟨?_, ?_⟩, fun hns => absurd hs hns⟩ <;>
        simp [getFoundryStatus, hf, hc, hexec, hmap, hs, Trace.empty]
    · refine ⟨?_, fun hx => absurd hx hs, fun _ => ⟨?_, ?_⟩⟩ <;>
        simp [getFoundryStatus, hf, hc, hexec, hmap, hs]

theorem getStatus_reconciliation_witness :
    (getFoundryStatus envOk [instRun] ("i1")).result =
      Except.ok FoundryInstanceStatus.ERROR ∧
    ((instRun.status = FoundryInstanceStatus.ERROR →
      (getFoundryStatus envOk [instRun] ("i1")).db = [instRun] ∧
      (getFoundryStatus envOk [instRun] ("i1")).trace.writes = []) ∧
    (instRun.status ≠ FoundryInstanceStatus.ERROR →
      (getFoundryStatus envOk [instRun] ("i1")).db =
        updateById [instRun] ("i1")
          (setStatus FoundryInstanceStatus.ERROR) ∧
      (getFoundryStatus envOk [instRun] ("i1")).trace.writes =
        [RepoWrite.updateStatus ("i1") FoundryInstanceStatus.ERROR])) :=
  (getStatus_reconciliation envOk [instRun] ("i1") instRun
    (by decide)).2 ("c1") ("cid-new") FoundryInstanceStatus.ERROR
    (by decide) (by decide) (by decide)

/-- C3: whenever startFoundry, stopFoundry or deleteFoundry fails, the
repository is exactly as before the call (first three conjuncts: any
error result leaves the repository untouched with no write performed);
and a failing engine command indeed makes the operation fail: the
remaining conjuncts show that each operation's engine-command failure —
`docker start` on an existing container, `chown`/`docker run` on a fresh
one, `docker stop`, `docker rm -f` — yields an error result, so the
failure propagates with the record neither flipped nor deleted. -/
theorem engineFailure_leaves_record_unchanged :
    (∀ env db iid, isErr (startFoundry env db iid).result = true →
      (startFoundry env db iid).db = db ∧
      (startFoundry env db iid).trace.writes = []) ∧
    (∀ env db iid, isErr (stopFoundry env db iid).result = true →
      (stopFoundry env db iid).db = db ∧
      (stopFoundry env db iid).trace.writes = []) ∧
    (∀ env db iid, isErr (deleteFoundry env db iid).result = true →
      (deleteFoundry env db iid).db = db ∧
      (deleteFoundry env db iid).trace.writes = []) ∧
    (∀ env db iid inst cid, findUniqueById db iid = some inst →
      ¬ inst.status = FoundryInstanceStatus.RUNNING →
      inst.dockerContainerId = some cid →
      outcomeFails (env.engine (dockerStartCommand cid)) = true →
      isErr (startFoundry env db iid).result = true) ∧
    (∀ env db iid inst, findUniqueById db iid = some inst →
      ¬ inst.status = FoundryInstanceStatus.RUNNING →
      inst.dockerContainerId = none →
      env.mkdirError (dataPathToUse env inst) = none →
      (outcomeFails (env.engine (chownCommand env inst)) = true ∨
        (outcomeFails (env.engine (chownCommand env inst)) = false ∧
          outcomeFails (env.engine (dockerRunCommand env inst)) = true)) →
      isErr (startFoundry env db iid).result = true) ∧
    (∀ env db iid inst cid, findUniqueById db iid = some inst →
      inst.status = FoundryInstanceStatus.RUNNING →
      inst.dockerContainerId = some cid →
      outcomeFails (env.engine (dockerStopCommand cid)) = true →
      isErr (stopFoundry env db iid).result = true) ∧
    (∀ env db iid inst cid, findUniqueById db iid = some inst →
      inst.dockerContainerId = some cid →
      outcomeFails (env.engine (dockerRmCommand cid)) = true →
      isErr (deleteFoundry env db iid).result = true) := by
  refine ⟨?_, ?_, ?_, ?_, ?_, ?_, ?_⟩
  · intro env db iid h
    rcases startFoundry_cases env db iid with ⟨_, hdb, hw⟩ |
        ⟨inst, cid, _, _, hres, _, _⟩
    · exact ⟨hdb, hw⟩
    · rw [hres] at h; simp [isErr] at h
  · intro env db iid h
    rcases stopFoundry_cases env db iid with ⟨_, hdb, hw⟩ |
        ⟨inst, cid, _, _, _, hres, _, _⟩
    · exact ⟨hdb, hw⟩
    · rw [hres] at h; simp [isErr] at h
  · intro env db iid h
    rcases deleteFoundry_cases env db iid with ⟨_, hdb, hw⟩ |
        ⟨inst, _, hres, _, _⟩
    · exact ⟨hdb, hw⟩
    · rw [hres] at h; simp [isErr] at h
  · intro env db iid inst cid hf hr hc hfail
    obtain ⟨e, hee⟩ := executeCommand_err
      (env.engine (dockerStartCommand cid))
      ("Failed to start existing Docker container for instance " ++
        inst.name) hfail
    simp [startFoundry, hf, hr, hc, hee, isErr]
  · intro env db iid inst hf hr hc hm hfail
    rcases hfail with hch | ⟨hch, hrun⟩
    · obtain ⟨e, hee⟩ := executeCommand_err
        (env.engine (chownCommand env inst))
        ("Failed to change ownership of " ++ dataPathToUse env inst) hch
      simp [startFoundry, hf, hr, hc, hm, hee, isErr]
    · obtain ⟨s, hok⟩ := executeCommand_ok
        (env.engine (chownCommand env inst))
        ("Failed to change ownership of " ++ dataPathToUse env inst) hch
      obtain ⟨e, hee⟩ := executeCommand_err
        (env.engine (dockerRunCommand env inst))
        ("Failed to start Docker container for instance " ++ inst.name)
        hrun
      simp [startFoundry, hf, hr, hc, hm, hok, hee, isErr]
  · intro env db iid inst cid hf hr hc hfail
    obtain ⟨e, hee⟩ := executeCommand_err
      (env.engine (dockerStopCommand cid))
      ("Failed to stop Docker container for instance " ++ inst.name) hfail
    simp [stopFoundry, hf, hr, hc, hee, isErr]
  · intro env db iid inst cid hf hc hfail
    obtain ⟨e, hee⟩ := executeCommand_err
      (env.engine (dockerRmCommand cid))
      ("Failed to remove Docker container for instance " ++ inst.name)
      hfail
    simp [deleteFoundry, hf, hc, hee, isErr]

theorem engineFailure_leaves_record_unchanged_witness :
    ((stopFoundry envFail [instRun] ("i1")).db = [instRun] ∧
      (stopFoundry envFail [instRun] ("i1")).trace.writes = []) ∧
    isErr (stopFoundry envFail [instRun] ("i1")).result = true ∧
    isErr (deleteFoundry envFail [instRun] ("i1")).result = true ∧
    (deleteFoundry envFail [instRun] ("i1")).db = [instRun] :=
  ⟨engineFailure_leaves_record_unchanged.2.1 envFail [instRun] ("i1")
      (by decide),
   engineFailure_leaves_record_unchanged.2.2.2.2.2.1 envFail [instRun]
      ("i1") instRun ("c1") (by decide) (by decide) (by decide)
      (by decide),
   engineFailure_leaves_record_unchanged.2.2.2.2.2.2 envFail [instRun]
      ("i1") instRun ("c1") (by decide) (by decide) (by decide),
   (engineFailure_leaves_record_unchanged.2.2.1 envFail [instRun] ("i1")
      (by decide)).1⟩

/-- C2: when the uniqueness checks pass but the internal start step of
createFoundryInstance fails, the create call rethrows that same error,
its write trace is exactly the insert followed by the deletion of the
just-inserted record, and afterwards no record with the attempted name
remains in the repository. -/
theorem createInstance_rollback_on_start_failure (env : Env)
    (db : List FoundryInstance) (name : String) (port : Nat)
    (ownerId : Option Nat) (e : FoundryError)
    (hn : findUniqueByName db name = none)
    (hp : findUniqueByPort db port = none)
    (hs : (startFoundry env (db ++ [(⟨env.freshId, name, port,
        FoundryInstanceStatus.CREATING, none,
        ownerId⟩ : FoundryInstance)]) env.freshId).result =
      Except.error e) :
    (createFoundryInstance env db name port ownerId).result =
      Except.error e ∧
    (createFoundryInstance env db name port ownerId).trace.writes =
      [RepoWrite.insert (⟨env.freshId, name, port,
        FoundryInstanceStatus.CREATING, none, ownerId⟩ : FoundryInstance),
       RepoWrite.deleteRec env.freshId] ∧
    ∀ i ∈ (createFoundryInstance env db name port ownerId).db,
      i.name ≠ name := by
  rcases startFoundry_cases env (db ++ [(⟨env.freshId, name, port,
      FoundryInstanceStatus.CREATING, none, ownerId⟩ : FoundryInstance)])
      env.freshId with ⟨he, hdb, hw⟩ | ⟨inst, cid, _, _, hres, _, _⟩
  · refine ⟨by simp [createFoundryInstance, hn, hp, hs],
      by simp [createFoundryInstance, hn, hp, hs, hw], ?_⟩
    have hdb2 : (createFoundryInstance env db name port ownerId).db =
        deleteById (db ++ [(⟨env.freshId, name, port,
          FoundryInstanceStatus.CREATING, none,
          ownerId⟩ : FoundryInstance)]) env.freshId := by
      simp [createFoundryInstance, hn, hp, hs, hdb]
    intro i hi hcontra
    rw [hdb2] at hi
    simp only [deleteById, List.mem_filter, List.mem_append,
      List.mem_singleton] at hi
    rcases hi with ⟨h1 | h2, hpred⟩
    · have hnone := List.find?_eq_none.1 hn i h1
      simp only [findUniqueByName] at hn
      have := List.find?_eq_none.1 hn i h1
      rw [hcontra] at this
      simp at this
    · rw [h2] at hpred
      simp at hpred
  · rw [hres] at hs; simp at hs

theorem createInstance_rollback_on_start_failure_witness :
    (createFoundryInstance envFail [] ("alpha") 30010 none).result =
      Except.error (FoundryError.internal
        ("Failed to change ownership of /app/foundry-data-root/new-1: boom")) ∧
    (createFoundryInstance envFail [] ("alpha") 30010 none).trace.writes =
      [RepoWrite.insert (⟨"new-1", "alpha", 30010,
        FoundryInstanceStatus.CREATING, none, none⟩ : FoundryInstance),
       RepoWrite.deleteRec ("new-1")] ∧
    ∀ i ∈ (createFoundryInstance envFail [] ("alpha") 30010 none).db,
      i.name ≠ "alpha" :=
  createInstance_rollback_on_start_failure envFail [] ("alpha") 30010
    none (FoundryError.internal
      ("Failed to change ownership of /app/foundry-data-root/new-1: boom"))
    (by decide) (by decide) (by decide)

/-- C1: when a record with the requested name, or one with the requested
port, already exists, createFoundryInstance fails with a BadRequest (4xx
client) error — the concrete surfacing of the duplicate-name /
duplicate-port conflict — and performs no write at all: the repository is
exactly as before.  Consequently (second conjunct) of two sequential
create calls sharing a name or a port, the second always fails once the
first has succeeded. -/
theorem createInstance_uniqueness_guard :
    (∀ env db name port ownerId,
      ((∃ i ∈ db, i.name = name) ∨ (∃ i ∈ db, i.port = port)) →
      (∃ msg,
        (createFoundryInstance env db name port ownerId).result =
          Except.error (FoundryError.badRequest msg) ∧
        FoundryError.isClientError (FoundryError.badRequest msg) = true) ∧
      (createFoundryInstance env db name port ownerId).db = db ∧
      (createFoundryInstance env db name port ownerId).trace.writes =
        []) ∧
    (∀ env db name port ownerId p env2 name2 port2 ownerId2,
      (createFoundryInstance env db name port ownerId).result =
        Except.ok p →
      (name2 = name ∨ port2 = port) →
      ∃ msg,
        (createFoundryInstance env2
          (createFoundryInstance env db name port ownerId).db name2
          port2 ownerId2).result =
          Except.error (FoundryError.badRequest msg)) := by
  constructor
  · intro env db name port ownerId hdup
    rcases hn : findUniqueByName db name with _ | j
    · rcases hp : findUniqueByPort db port with _ | j
      · exfalso
        rcases hdup with ⟨i, hi, hni⟩ | ⟨i, hi, hpi⟩
        · have := List.find?_eq_none.1 hn i hi
          rw [hni] at this; simp at this
        · have := List.find?_eq_none.1 hp i hi
          rw [hpi] at this; simp at this
      · exact ⟨⟨"Foundry instance with port " ++ toString port ++
            " already in use.",
          by simp [createFoundryInstance, hn, hp], rfl⟩,
          by simp [createFoundryInstance, hn, hp],
          by simp [createFoundryInstance, hn, hp, Trace.empty]⟩
    · exact ⟨⟨"Foundry instance with name " ++ name ++
          " already exists.",
        by simp [createFoundryInstance, hn], rfl⟩,
        by simp [createFoundryInstance, hn],
        by simp [createFoundryInstance, hn, Trace.empty]⟩
  · intro env db name port ownerId p env2 name2 port2 ownerId2 hok hdup
    rcases hn : findUniqueByName db name with _ | j0
    · rcases hp : findUniqueByPort db port with _ | j0
      · rcases startFoundry_cases env (db ++ [(⟨env.freshId, name, port,
            FoundryInstanceStatus.CREATING, none,
            ownerId⟩ : FoundryInstance)]) env.freshId with
            ⟨he, _, _⟩ | ⟨inst, cid, _, _, hres, hdbeq, _⟩
        · rcases hse : (startFoundry env (db ++ [(⟨env.freshId, name,
              port, FoundryInstanceStatus.CREATING, none,
              ownerId⟩ : FoundryInstance)]) env.freshId).result
              with e | r
          · simp [createFoundryInstance, hn, hp, hse] at hok
          · rw [hse] at he; simp [isErr] at he
        · have hdb2 : (createFoundryInstance env db name port
              ownerId).db = updateById (db ++ [(⟨env.freshId, name, port,
                FoundryInstanceStatus.CREATING, none,
                ownerId⟩ : FoundryInstance)]) env.freshId
                (setStarted cid) := by
            simp [createFoundryInstance, hn, hp, hres, hdbeq]
          have hjmem : setStarted cid (⟨env.freshId, name, port,
              FoundryInstanceStatus.CREATING, none,
              ownerId⟩ : FoundryInstance) ∈
              updateById (db ++ [(⟨env.freshId, name, port,
                FoundryInstanceStatus.CREATING, none,
                ownerId⟩ : FoundryInstance)]) env.freshId
                (setStarted cid) := by
            have hmem : (⟨env.freshId, name, port,
                FoundryInstanceStatus.CREATING, none,
                ownerId⟩ : FoundryInstance) ∈
                db ++ [(⟨env.freshId, name, port,
                  FoundryInstanceStatus.CREATING, none,
                  ownerId⟩ : FoundryInstance)] :=
              List.mem_append.2 (Or.inr (List.mem_singleton.2 rfl))
            have himg := List.mem_map_of_mem
              (fun i => if i.id == env.freshId then setStarted cid i
                else i) hmem
            simp only [updateById]
            simp only [beq_self_eq_true, if_true] at himg
            exact himg
          rw [hdb2]
          rcases hn2 : findUniqueByName (updateById (db ++
              [(⟨env.freshId, name, port, FoundryInstanceStatus.CREATING,
                none, ownerId⟩ : FoundryInstance)]) env.freshId
              (setStarted cid)) name2 with _ | j2
          · rcases hdup with hname2 | hport2
            · exfalso
              have := List.find?_eq_none.1 hn2 _ hjmem
              rw [hname2] at this
              simp [setStarted] at this
            · rcases hp2 : findUniqueByPort (updateById (db ++
                  [(⟨env.freshId, name, port,
                    FoundryInstanceStatus.CREATING, none,
                    ownerId⟩ : FoundryInstance)]) env.freshId
                  (setStarted cid)) port2 with _ | j3
              · exfalso
                have := List.find?_eq_none.1 hp2 _ hjmem
                rw [hport2] at this
                simp [setStarted] at this
              · exact ⟨"Foundry instance with port " ++ toString port2 ++
                  " already in use.",
                  by simp [createFoundryInstance, hn2, hp2]⟩
          · exact ⟨"Foundry instance with name " ++ name2 ++
              " already exists.", by simp [createFoundryInstance, hn2]⟩
      · simp [createFoundryInstance, hn, hp] at hok
    · simp [createFoundryInstance, hn] at hok

theorem createInstance_uniqueness_guard_witness :
    ((∃ msg,
      (createFoundryInstance envOk [instRun] ("alpha") 40000
          none).result =
        Except.error (FoundryError.badRequest msg) ∧
      FoundryError.isClientError (FoundryError.badRequest msg) = true) ∧
    (createFoundryInstance envOk [instRun] ("alpha") 40000 none).db =
      [instRun] ∧
    (createFoundryInstance envOk [instRun] ("alpha") 40000
      none).trace.writes = []) ∧
    ∃ msg,
      (createFoundryInstance envOk
        (createFoundryInstance envOk [] ("alpha") 30010 none).db
        ("alpha") 40000 none).result =
        Except.error (FoundryError.badRequest msg) :=
  ⟨createInstance_uniqueness_guard.1 envOk [instRun] ("alpha") 40000
      none (by decide),
   createInstance_uniqueness_guard.2 envOk [] ("alpha") 30010 none
      (createdAlpha, HealthStatus.healthy) envOk ("alpha") 40000 none
      (by decide) (Or.inl rfl)⟩

end FIM
